import Mathlib

/-!
Verification of the invoice-request admission and validation sequence of the
dcr-tippin faucet (faucet.go). The embedding models the generateInvoice
handler: the rate-limit check against the package-level
lastGeneratedInvoiceTime, the unconditional attempt recording, form parsing,
amount parsing (strconv.ParseFloat), the 0.2 DCR ceiling, the conversion to
atoms via int64(amtDcr * 1e8), and the call to lnd.AddInvoice; plus the
faucetHome dispatcher that routes POST requests with the
action=generateinvoice query parameter to it. Time is modelled in seconds as
integers; parsed amounts are modelled as exact rationals.
-/

namespace DcrTippin

/-- chanCreationError enumeration from faucet.go lines 39-92. The spec error
taxonomy maps onto it as: RateLimited = InvoiceTimeNotElapsed, AmountNotNumber
= ChanAmountNotNumber, AmountTooHigh = InvoiceAmountTooHigh,
InvoiceGenerationFailed = ErrorGeneratingInvoice, None = NoError. -/
inductive chanCreationError where
  | NoError
  | InvalidAddress
  | NotConnected
  | ChanAmountNotNumber
  | ChannelTooLarge
  | ChannelTooSmall
  | PushIncorrect
  | ChannelOpenFail
  | HaveChannel
  | HavePendingChannel
  | ErrorGeneratingInvoice
  | InvoiceTimeNotElapsed
  | InvoiceAmountTooHigh
  deriving DecidableEq, Repr

/-- GenerateInvoiceTimeout, faucet.go line 98: 60 seconds (time modelled in
whole seconds). -/
def GenerateInvoiceTimeout : ℤ := 60

/-- GenerateInvoiceAction, faucet.go line 101. -/
def GenerateInvoiceAction : String := "generateinvoice"

/-- lnrpc.Invoice request message as populated at faucet.go lines 376-380:
creation date, value in atoms, memo. -/
structure Invoice where
  CreationDate : ℤ
  Value : ℤ
  Memo : String
  deriving DecidableEq, Repr

/-- Fields of the lnrpc.AddInvoiceResponse used at faucet.go lines 389-392. -/
structure AddInvoiceResponse where
  PaymentRequest : String
  AddIndex : ℕ
  deriving DecidableEq, Repr

/-- External collaborators of generateInvoice: strconv.ParseFloat (modelled as
the exact parsed value as a rational, or none on a parse error) and the remote
lnd nodes AddInvoice RPC (modelled as a function from the request message to
either a response or an error). -/
structure Env where
  parseFloat : String → Option ℚ
  addInvoice : Invoice → Except String AddInvoiceResponse

/-- Go conversion int64(q): truncation toward zero. -/
def int64Of (q : ℚ) : ℤ := if 0 ≤ q then ⌊q⌋ else -⌊-q⌋

/-- Result rendered back to the HTTP layer by one generateInvoice call:
either a template execution carrying the SubmissionError set on the
homePageContext (and, on success, the newly set InvoicePaymentRequest), or
the http.Error taken on a form-parse failure (faucet.go line 356). -/
inductive Outcome where
  | rendered (submissionError : chanCreationError)
      (invoicePaymentRequest : Option String)
  | httpError (status : ℕ) (msg : String)
  deriving DecidableEq, Repr

/-- Observable effect of one generateInvoice call: the rendered outcome, the
value of the package-level lastGeneratedInvoiceTime afterwards, and the list
of AddInvoice RPC requests dispatched to the remote node during the call. -/
structure GenerateInvoiceResult where
  outcome : Outcome
  lastGeneratedInvoiceTime : ℤ
  remoteCalls : List Invoice
  deriving DecidableEq, Repr

/-- Shallow embedding of lightningFaucet.generateInvoice, faucet.go lines
338-397. Inputs: the external environment, the current time, the current
value of lastGeneratedInvoiceTime, the submitted amt and description form
values, and whether r.ParseForm succeeds (formParseOk). The several
time.Now() reads inside one call are modelled by the single instant now. -/
def generateInvoice (env : Env) (now lastGeneratedInvoiceTime : ℤ)
    (amt description : String) (formParseOk : Bool) : GenerateInvoiceResult :=
  let elapsed := now - lastGeneratedInvoiceTime
  if elapsed < GenerateInvoiceTimeout then
    ⟨.rendered .InvoiceTimeNotElapsed none, lastGeneratedInvoiceTime, []⟩
  else
    let lastTime := now
    if formParseOk = false then
      ⟨.httpError 500 "unable to parse form", lastTime, []⟩
    else
      match env.parseFloat amt with
      | none => ⟨.rendered .ChanAmountNotNumber none, lastTime, []⟩
      | some amtDcr =>
        if amtDcr > 0.2 then
          ⟨.rendered .InvoiceAmountTooHigh none, lastTime, []⟩
        else
          let amtAtoms := int64Of (amtDcr * 100000000)
          let invoiceReq : Invoice := ⟨now, amtAtoms, description⟩
          match env.addInvoice invoiceReq with
          | .error _ =>
            ⟨.rendered .ErrorGeneratingInvoice none, lastTime, [invoiceReq]⟩
          | .ok invoice =>
            ⟨.rendered .NoError (some invoice.PaymentRequest), lastTime,
              [invoiceReq]⟩

/-- HTTP method of an inbound request, as switched on in faucetHome. -/
inductive Method where
  | GET
  | POST
  | other
  deriving DecidableEq, Repr

/-- Result of one faucetHome invocation: the home template rendered (GET), a
generateInvoice submission handled (POST with action=generateinvoice), a
return with no response written (POST with a different action value), the
405 http.Error (other methods), or a runtime panic. -/
inductive HandlerResult where
  | renderedHome
  | submission (r : GenerateInvoiceResult)
  | noResponse
  | methodNotAllowed
  | panicked
  deriving DecidableEq, Repr

/-- Shallow embedding of lightningFaucet.faucetHome, faucet.go lines 260-293.
queryAction models the slice r.URL.Query()["action"], which is empty when the
URL query lacks the action parameter; in that case the Go code evaluates
action[0] on an empty slice, an index-out-of-range runtime panic. Returns the
handler result together with the value of lastGeneratedInvoiceTime after the
request. -/
def faucetHome (env : Env) (now lastGeneratedInvoiceTime : ℤ) (method : Method)
    (queryAction : List String) (amt description : String)
    (formParseOk : Bool) : HandlerResult × ℤ :=
  match method with
  | .GET => (.renderedHome, lastGeneratedInvoiceTime)
  | .POST =>
    match queryAction with
    | [] => (.panicked, lastGeneratedInvoiceTime)
    | a :: _ =>
      if a = GenerateInvoiceAction then
        let r := generateInvoice env now lastGeneratedInvoiceTime amt
          description formParseOk
        (.submission r, r.lastGeneratedInvoiceTime)
      else
        (.noResponse, lastGeneratedInvoiceTime)
  | .other => (.methodNotAllowed, lastGeneratedInvoiceTime)

/-- One form submission in a sequence: its arrival time and form values. -/
structure Submission where
  now : ℤ
  amt : String
  description : String
  formParseOk : Bool
  deriving DecidableEq, Repr

/-- Sequential processing of a list of submissions through generateInvoice,
threading the package-level lastGeneratedInvoiceTime. Returns each submission
paired with its result. -/
def runSubmissions (env : Env) : ℤ → List Submission →
    List (Submission × GenerateInvoiceResult)
  | _, [] => []
  | lastTime, s :: rest =>
    let r := generateInvoice env s.now lastTime s.amt s.description
      s.formParseOk
    (s, r) :: runSubmissions env r.lastGeneratedInvoiceTime rest

/-- Concrete external environment used for witnesses: a parse table for a few
amount strings and a remote node that always succeeds with a fixed payment
request. -/
def env0 : Env :=
  ⟨fun s =>
    if s = "0.1" then some (1/10)
    else if s = "0.5" then some (1/2)
    else if s = "-1" then some (-1)
    else if s = "-0.000000015" then some (-(3/200000000))
    else none,
   fun _ => .ok ⟨"lnpr1deadbeef", 1⟩⟩

/-- Concrete external environment whose remote node always fails. -/
def envErr : Env := ⟨env0.parseFloat, fun _ => .error "connection refused"⟩

lemma GenerateInvoiceTimeout_eq : GenerateInvoiceTimeout = 60 := rfl

/-- generateInvoice on the rate-limited path: the whole result. -/
lemma generateInvoice_rateLimited_eq (env : Env) (now lastTime : ℤ)
    (amt description : String) (formParseOk : Bool)
    (h : now - lastTime < GenerateInvoiceTimeout) :
    generateInvoice env now lastTime amt description formParseOk =
      ⟨.rendered .InvoiceTimeNotElapsed none, lastTime, []⟩ := by
  simp [generateInvoice, h]

/-- Characterization of the timestamp after one generateInvoice call: it is
unchanged exactly on the rate-limited path and set to now on every other
path. -/
lemma generateInvoice_lastTime_char (env : Env) (now lastTime : ℤ)
    (amt description : String) (formParseOk : Bool) :
    (generateInvoice env now lastTime amt description
        formParseOk).lastGeneratedInvoiceTime =
      if now - lastTime < GenerateInvoiceTimeout then lastTime else now := by
  by_cases h : now - lastTime < GenerateInvoiceTimeout
  · rw [generateInvoice_rateLimited_eq env now lastTime amt description
      formParseOk h, if_pos h]
  · rw [if_neg h]
    simp only [generateInvoice, if_neg h]
    repeat' split
    all_goals rfl

/-- A dispatch to the remote node implies the cooldown had elapsed. -/
lemma generateInvoice_dispatch_elapsed (env : Env) (now lastTime : ℤ)
    (amt description : String) (formParseOk : Bool)
    (h : (generateInvoice env now lastTime amt description
        formParseOk).remoteCalls ≠ []) :
    GenerateInvoiceTimeout ≤ now - lastTime := by
  by_contra hlt
  rw [generateInvoice_rateLimited_eq env now lastTime amt description
    formParseOk (lt_of_not_le hlt)] at h
  exact h rfl

/-- A dispatch to the remote node implies the timestamp was set to now. -/
lemma generateInvoice_dispatch_lastTime (env : Env) (now lastTime : ℤ)
    (amt description : String) (formParseOk : Bool)
    (h : (generateInvoice env now lastTime amt description
        formParseOk).remoteCalls ≠ []) :
    (generateInvoice env now lastTime amt description
        formParseOk).lastGeneratedInvoiceTime = now := by
  have h60 := generateInvoice_dispatch_elapsed env now lastTime amt description
    formParseOk h
  rw [generateInvoice_lastTime_char, if_neg (not_lt.mpr h60)]

/-- C1: a submission arriving while now - lastAttemptAt is strictly below the
60-second cooldown returns the RateLimited error kind (InvoiceTimeNotElapsed),
dispatches no remote call, and leaves lastAttemptAt unchanged. -/
theorem submit_rateLimited_before_cooldown (env : Env) (now lastTime : ℤ)
    (amt description : String) (formParseOk : Bool)
    (h : now - lastTime < 60) :
    generateInvoice env now lastTime amt description formParseOk =
      ⟨.rendered .InvoiceTimeNotElapsed none, lastTime, []⟩ :=
  generateInvoice_rateLimited_eq env now lastTime amt description formParseOk h

/-- Witness for C1 at a concrete input: last attempt at 0, submission at 30. -/
theorem submit_rateLimited_before_cooldown_witness :
    (30 : ℤ) - 0 < 60 ∧
    generateInvoice env0 30 0 "0.1" "memo" true =
      ⟨.rendered .InvoiceTimeNotElapsed none, 0, []⟩ :=
  ⟨by norm_num,
   submit_rateLimited_before_cooldown env0 30 0 "0.1" "memo" true (by norm_num)⟩

/-- C2: once the rate check passes, lastAttemptAt is set to now regardless of
what happens afterwards: in every environment, for every amt string (parsing
or not), every form-parse result and every remote outcome. -/
theorem submit_records_attempt_unconditionally (env : Env) (now lastTime : ℤ)
    (amt description : String) (formParseOk : Bool)
    (h : 60 ≤ now - lastTime) :
    (generateInvoice env now lastTime amt description
        formParseOk).lastGeneratedInvoiceTime = now := by
  rw [generateInvoice_lastTime_char, GenerateInvoiceTimeout_eq,
    if_neg (not_lt.mpr h)]

/-- Witness for C2 at concrete inputs: an unparsable amount and a failing
remote node both still consume the attempt. -/
theorem submit_records_attempt_unconditionally_witness :
    (60 : ℤ) ≤ 100 - 0 ∧
    (generateInvoice env0 100 0 "abc" "memo"
        true).lastGeneratedInvoiceTime = 100 ∧
    (generateInvoice envErr 100 0 "0.1" "memo"
        true).lastGeneratedInvoiceTime = 100 :=
  ⟨by norm_num,
   submit_records_attempt_unconditionally env0 100 0 "abc" "memo" true
     (by norm_num),
   submit_records_attempt_unconditionally envErr 100 0 "0.1" "memo" true
     (by norm_num)⟩

/-- generateInvoice on the amount-parse-failure path. -/
lemma generateInvoice_parseFail_eq (env : Env) (now lastTime : ℤ)
    (amt description : String)
    (h60 : GenerateInvoiceTimeout ≤ now - lastTime)
    (hp : env.parseFloat amt = none) :
    generateInvoice env now lastTime amt description true =
      ⟨.rendered .ChanAmountNotNumber none, now, []⟩ := by
  simp [generateInvoice, not_lt.mpr h60, hp]

/-- generateInvoice on the amount-above-ceiling path. -/
lemma generateInvoice_tooHigh_eq (env : Env) (now lastTime : ℤ)
    (amt description : String) (a : ℚ)
    (h60 : GenerateInvoiceTimeout ≤ now - lastTime)
    (hp : env.parseFloat amt = some a) (hgt : (0.2 : ℚ) < a) :
    generateInvoice env now lastTime amt description true =
      ⟨.rendered .InvoiceAmountTooHigh none, now, []⟩ := by
  simp [generateInvoice, not_lt.mpr h60, hp, hgt]

/-- generateInvoice on the fully admitted path with a succeeding remote
node. -/
lemma generateInvoice_admitted_ok (env : Env) (now lastTime : ℤ)
    (amt description : String) (a : ℚ) (resp : AddInvoiceResponse)
    (h60 : GenerateInvoiceTimeout ≤ now - lastTime)
    (hp : env.parseFloat amt = some a) (hle : a ≤ (0.2 : ℚ))
    (hok : env.addInvoice ⟨now, int64Of (a * 100000000), description⟩ =
      .ok resp) :
    generateInvoice env now lastTime amt description true =
      ⟨.rendered .NoError (some resp.PaymentRequest), now,
        [⟨now, int64Of (a * 100000000), description⟩]⟩ := by
  simp [generateInvoice, not_lt.mpr h60, hp, not_lt.mpr hle, hok]

/-- generateInvoice on the fully admitted path with a failing remote node. -/
lemma generateInvoice_admitted_err (env : Env) (now lastTime : ℤ)
    (amt description : String) (a : ℚ) (e : String)
    (h60 : GenerateInvoiceTimeout ≤ now - lastTime)
    (hp : env.parseFloat amt = some a) (hle : a ≤ (0.2 : ℚ))
    (herr : env.addInvoice ⟨now, int64Of (a * 100000000), description⟩ =
      .error e) :
    generateInvoice env now lastTime amt description true =
      ⟨.rendered .ErrorGeneratingInvoice none, now,
        [⟨now, int64Of (a * 100000000), description⟩]⟩ := by
  simp [generateInvoice, not_lt.mpr h60, hp, not_lt.mpr hle, herr]

/-- An admitted submission dispatches exactly one remote call, carrying the
truncated atom amount and the unchanged description, whatever the remote
outcome is. -/
lemma generateInvoice_admitted_remoteCalls (env : Env) (now lastTime : ℤ)
    (amt description : String) (a : ℚ)
    (h60 : GenerateInvoiceTimeout ≤ now - lastTime)
    (hp : env.parseFloat amt = some a) (hle : a ≤ (0.2 : ℚ)) :
    (generateInvoice env now lastTime amt description true).remoteCalls =
      [⟨now, int64Of (a * 100000000), description⟩] := by
  cases hrem : env.addInvoice ⟨now, int64Of (a * 100000000), description⟩ with
  | error e =>
    rw [generateInvoice_admitted_err env now lastTime amt description a e h60
      hp hle hrem]
  | ok resp =>
    rw [generateInvoice_admitted_ok env now lastTime amt description a resp h60
      hp hle hrem]

/-- C4: a submission that passes the rate-limit check (and reaches the amount
parse) whose amt string fails to parse returns the AmountNotNumber error kind
(ChanAmountNotNumber) and dispatches no remote call. -/
theorem submit_amount_not_number (env : Env) (now lastTime : ℤ)
    (amt description : String)
    (h60 : 60 ≤ now - lastTime) (hp : env.parseFloat amt = none) :
    generateInvoice env now lastTime amt description true =
      ⟨.rendered .ChanAmountNotNumber none, now, []⟩ :=
  generateInvoice_parseFail_eq env now lastTime amt description h60 hp

/-- Witness for C4 at a concrete input: the string abc does not parse. -/
theorem submit_amount_not_number_witness :
    env0.parseFloat "abc" = none ∧
    generateInvoice env0 100 0 "abc" "memo" true =
      ⟨.rendered .ChanAmountNotNumber none, 100, []⟩ :=
  ⟨by simp [env0],
   submit_amount_not_number env0 100 0 "abc" "memo" (by norm_num)
     (by simp [env0])⟩

/-- C5: after the rate check, a parsed amount strictly above 0.2 returns the
AmountTooHigh error kind (InvoiceAmountTooHigh) with no remote call; a parsed
amount at most 0.2 passes the ceiling check and the remote call is dispatched;
and the rate check runs first, so inside the cooldown window the outcome is
RateLimited regardless of the amount. -/
theorem submit_amount_ceiling (env : Env) (now lastTime : ℤ)
    (amt description : String) (a : ℚ) :
    (60 ≤ now - lastTime → env.parseFloat amt = some a → (0.2 : ℚ) < a →
      generateInvoice env now lastTime amt description true =
        ⟨.rendered .InvoiceAmountTooHigh none, now, []⟩) ∧
    (60 ≤ now - lastTime → env.parseFloat amt = some a → a ≤ (0.2 : ℚ) →
      (generateInvoice env now lastTime amt description true).remoteCalls =
        [⟨now, int64Of (a * 100000000), description⟩]) ∧
    (now - lastTime < 60 →
      generateInvoice env now lastTime amt description true =
        ⟨.rendered .InvoiceTimeNotElapsed none, lastTime, []⟩) :=
  ⟨fun h60 hp hgt =>
    generateInvoice_tooHigh_eq env now lastTime amt description a h60 hp hgt,
   fun h60 hp hle =>
    generateInvoice_admitted_remoteCalls env now lastTime amt description a h60
      hp hle,
   fun h =>
    generateInvoice_rateLimited_eq env now lastTime amt description true h⟩

/-- Witness for C5 at a concrete input: amt 0.5 parses to 1/2 which exceeds
the ceiling. -/
theorem submit_amount_ceiling_witness :
    env0.parseFloat "0.5" = some (1/2) ∧ (0.2 : ℚ) < 1/2 ∧
    generateInvoice env0 100 0 "0.5" "memo" true =
      ⟨.rendered .InvoiceAmountTooHigh none, 100, []⟩ :=
  ⟨by simp [env0], by norm_num,
   (submit_amount_ceiling env0 100 0 "0.5" "memo" (1/2)).1 (by norm_num)
     (by simp [env0]) (by norm_num)⟩

lemma int64Of_neg_onePointFive :
    int64Of ((-(3/200000000) : ℚ) * 100000000) = -1 := by
  rw [int64Of]
  norm_num

lemma int64Of_neg_one : int64Of ((-1 : ℚ) * 100000000) = -100000000 := by
  rw [int64Of]
  norm_num

/-- Counterexample to C6 as stated: the amount string -0.000000015 is admitted
(the ceiling check only bounds above), and the dispatched subunit value is the
truncation -1, not the round-down -2 of the exact product -1.5. -/
theorem subunit_not_round_down_counterexample :
    env0.parseFloat "-0.000000015" = some (-(3/200000000)) ∧
    (generateInvoice env0 100 0 "-0.000000015" "memo" true).remoteCalls =
      [⟨100, -1, "memo"⟩] ∧
    ⌊((-(3/200000000) : ℚ)) * 100000000⌋ = -2 ∧ ((-1 : ℤ) ≠ -2) := by
  refine ⟨by simp [env0], ?_, by norm_num, by norm_num⟩
  rw [generateInvoice_admitted_remoteCalls env0 100 0 "-0.000000015" "memo"
    (-(3/200000000)) (by norm_num [GenerateInvoiceTimeout]) (by simp [env0])
    (by norm_num), int64Of_neg_onePointFive]

/-- C6 amended: for every admitted submission the dispatched value is the
parsed amount times 10^8 truncated toward zero (the Go int64 conversion),
the memo is the description unchanged, and for non-negative amounts the
truncation coincides with round-down. -/
theorem subunit_truncation (env : Env) (now lastTime : ℤ)
    (amt description : String) (a : ℚ)
    (h60 : 60 ≤ now - lastTime) (hp : env.parseFloat amt = some a)
    (hle : a ≤ (0.2 : ℚ)) :
    (generateInvoice env now lastTime amt description true).remoteCalls =
      [⟨now, int64Of (a * 100000000), description⟩] ∧
    (0 ≤ a → int64Of (a * 100000000) = ⌊a * 100000000⌋) :=
  ⟨generateInvoice_admitted_remoteCalls env now lastTime amt description a h60
     hp hle,
   fun ha => by
     rw [int64Of, if_pos (mul_nonneg ha (by norm_num))]⟩

/-- Witness for the amended C6 at a concrete input. -/
theorem subunit_truncation_witness :
    (generateInvoice env0 100 0 "0.1" "memo" true).remoteCalls =
      [⟨100, int64Of ((1/10 : ℚ) * 100000000), "memo"⟩] ∧
    (0 ≤ (1/10 : ℚ) →
      int64Of ((1/10 : ℚ) * 100000000) = ⌊(1/10 : ℚ) * 100000000⌋) :=
  subunit_truncation env0 100 0 "0.1" "memo" (1/10) (by norm_num)
    (by simp [env0]) (by norm_num)

/-- C7: for a valid submission and a remote node that succeeds with a
non-empty payment request on every request, the outcome carries that
non-empty payment request and the NoError kind. -/
theorem submit_success (env : Env) (now lastTime : ℤ)
    (amt description : String) (a : ℚ)
    (h60 : 60 ≤ now - lastTime) (hp : env.parseFloat amt = some a)
    (hle : a ≤ (0.2 : ℚ))
    (hok : ∀ inv, ∃ resp, env.addInvoice inv = .ok resp ∧
      resp.PaymentRequest ≠ "") :
    ∃ pr, pr ≠ "" ∧
      (generateInvoice env now lastTime amt description true).outcome =
        .rendered .NoError (some pr) := by
  obtain ⟨resp, hre, hne⟩ := hok ⟨now, int64Of (a * 100000000), description⟩
  exact ⟨resp.PaymentRequest, hne, by
    rw [generateInvoice_admitted_ok env now lastTime amt description a resp h60
      hp hle hre]⟩

/-- Witness for C7 at a concrete input. -/
theorem submit_success_witness :
    ∃ pr, pr ≠ "" ∧
      (generateInvoice env0 100 0 "0.1" "memo" true).outcome =
        .rendered .NoError (some pr) :=
  submit_success env0 100 0 "0.1" "memo" (1/10) (by norm_num) (by simp [env0])
    (by norm_num) (fun _ => ⟨⟨"lnpr1deadbeef", 1⟩, rfl, by simp⟩)

/-- C8: when the remote call fails, the submission returns exactly the
InvoiceGenerationFailed error kind (ErrorGeneratingInvoice) as a rendered
result, and exactly one remote call was made (no internal retry). -/
theorem submit_remote_failure (env : Env) (now lastTime : ℤ)
    (amt description : String) (a : ℚ) (e : String)
    (h60 : 60 ≤ now - lastTime) (hp : env.parseFloat amt = some a)
    (hle : a ≤ (0.2 : ℚ))
    (herr : env.addInvoice ⟨now, int64Of (a * 100000000), description⟩ =
      .error e) :
    generateInvoice env now lastTime amt description true =
      ⟨.rendered .ErrorGeneratingInvoice none, now,
        [⟨now, int64Of (a * 100000000), description⟩]⟩ :=
  generateInvoice_admitted_err env now lastTime amt description a e h60 hp hle
    herr

/-- Witness for C8 at a concrete input: a remote node that always fails. -/
theorem submit_remote_failure_witness :
    generateInvoice envErr 100 0 "0.1" "memo" true =
      ⟨.rendered .ErrorGeneratingInvoice none, 100,
        [⟨100, int64Of ((1/10 : ℚ) * 100000000), "memo"⟩]⟩ :=
  submit_remote_failure envErr 100 0 "0.1" "memo" (1/10) "connection refused"
    (by norm_num) (by simp [envErr, env0]) (by norm_num) rfl

/-- Counterexample to C9 as stated: the amount string -1 parses to a strictly
negative number, is admitted, and an invoice-creation call with the negative
subunit value -100000000 is dispatched to the remote node. -/
theorem negative_amount_dispatched_counterexample :
    env0.parseFloat "-1" = some (-1) ∧
    (generateInvoice env0 100 0 "-1" "memo" true).remoteCalls =
      [⟨100, -100000000, "memo"⟩] ∧ ((-100000000 : ℤ) < 0) := by
  refine ⟨by simp [env0], ?_, by norm_num⟩
  rw [generateInvoice_admitted_remoteCalls env0 100 0 "-1" "memo" (-1)
    (by norm_num [GenerateInvoiceTimeout]) (by simp [env0]) (by norm_num),
    int64Of_neg_one]

/-- C9 amended: a strictly negative parsed amount is not rejected by the
validation: the only amount bound is the 0.2 ceiling, so the invoice-creation
call is dispatched with the truncated subunit value, which is strictly
negative whenever the amount is at most -10^-8. -/
theorem negative_amount_admitted (env : Env) (now lastTime : ℤ)
    (amt description : String) (a : ℚ)
    (h60 : 60 ≤ now - lastTime) (hp : env.parseFloat amt = some a)
    (hneg : a < 0) :
    (generateInvoice env now lastTime amt description true).remoteCalls =
      [⟨now, int64Of (a * 100000000), description⟩] ∧
    (a ≤ -(1/100000000) → int64Of (a * 100000000) < 0) := by
  have hle : a ≤ (0.2 : ℚ) := le_trans hneg.le (by norm_num)
  refine ⟨generateInvoice_admitted_remoteCalls env now lastTime amt description
    a h60 hp hle, ?_⟩
  intro hsm
  have h1 : a * 100000000 ≤ -1 := by linarith
  rw [int64Of, if_neg (by linarith : ¬ (0 ≤ a * 100000000))]
  have h2 : (1 : ℤ) ≤ ⌊-(a * 100000000)⌋ := by
    rw [Int.le_floor]
    push_cast
    linarith
  omega

/-- Witness for the amended C9 at a concrete input. -/
theorem negative_amount_admitted_witness :
    (generateInvoice env0 100 0 "-1" "memo" true).remoteCalls =
      [⟨100, int64Of ((-1 : ℚ) * 100000000), "memo"⟩] ∧
    ((-1 : ℚ) ≤ -(1/100000000) → int64Of ((-1 : ℚ) * 100000000) < 0) :=
  negative_amount_admitted env0 100 0 "-1" "memo" (-1) (by norm_num)
    (by simp [env0]) (by norm_num)

/-- Lower bound carried through a run: if the timestamp and all submission
times are at least b, every dispatch happens at time at least b + 60. -/
lemma runSubmissions_dispatch_lb :
    ∀ (subs : List Submission) (env : Env) (lastTime b : ℤ),
      b ≤ lastTime → (∀ s ∈ subs, b ≤ s.now) →
      ∀ p ∈ runSubmissions env lastTime subs,
        p.2.remoteCalls ≠ [] → b + 60 ≤ p.1.now := by
  intro subs
  induction subs with
  | nil =>
    intro env lastTime b _ _ p hp
    simp [runSubmissions] at hp
  | cons s rest ih =>
    intro env lastTime b hbl hall p hp hne
    simp only [runSubmissions] at hp
    rcases List.mem_cons.mp hp with rfl | hmem
    · have h60 := generateInvoice_dispatch_elapsed env s.now lastTime s.amt
        s.description s.formParseOk hne
      rw [GenerateInvoiceTimeout_eq] at h60
      show b + 60 ≤ s.now
      omega
    · refine ih env _ b ?_ (fun x hx => hall x (List.mem_cons_of_mem s hx)) p
        hmem hne
      rw [generateInvoice_lastTime_char]
      split
      · exact hbl
      · exact hall s (List.mem_cons_self s rest)

/-- Any two dispatches in a sequential run with nondecreasing submission
times are at least 60 seconds apart. -/
lemma runSubmissions_dispatch_spacing :
    ∀ (subs : List Submission) (env : Env) (lastTime : ℤ),
      List.Pairwise (fun a b => a.now ≤ b.now) subs →
      List.Pairwise (fun p q => p.2.remoteCalls ≠ [] →
        q.2.remoteCalls ≠ [] → p.1.now + 60 ≤ q.1.now)
        (runSubmissions env lastTime subs) := by
  intro subs
  induction subs with
  | nil =>
    intro env lastTime _
    simp [runSubmissions]
  | cons s rest ih =>
    intro env lastTime hpw
    rw [List.pairwise_cons] at hpw
    obtain ⟨hle, hrest⟩ := hpw
    simp only [runSubmissions]
    rw [List.pairwise_cons]
    refine ⟨?_, ih env _ hrest⟩
    intro q hq hdr hdq
    have hlast := generateInvoice_dispatch_lastTime env s.now lastTime s.amt
      s.description s.formParseOk hdr
    exact runSubmissions_dispatch_lb rest env _ s.now (le_of_eq hlast.symm)
      hle q hq hdq

/-- The second of two identical submissions processed back to back is always
rate limited: whether or not the first was admitted, the elapsed time seen by
the second is below the cooldown. -/
lemma generateInvoice_second_identical (env : Env) (lastTime : ℤ)
    (s : Submission) :
    generateInvoice env s.now
        (generateInvoice env s.now lastTime s.amt s.description
          s.formParseOk).lastGeneratedInvoiceTime
        s.amt s.description s.formParseOk =
      ⟨.rendered .InvoiceTimeNotElapsed none,
        (generateInvoice env s.now lastTime s.amt s.description
          s.formParseOk).lastGeneratedInvoiceTime, []⟩ := by
  apply generateInvoice_rateLimited_eq
  rw [generateInvoice_lastTime_char, GenerateInvoiceTimeout_eq]
  split
  all_goals omega

/-- C3: in a sequential run with nondecreasing submission times, any two
remote dispatches are at least 60 seconds apart; every dispatch happens at
least 60 seconds after the recorded last attempt; and of two identical
submissions processed in immediate succession the second always returns the
RateLimited error kind (InvoiceTimeNotElapsed) and dispatches nothing. -/
theorem invoice_dispatch_spacing :
    (∀ (env : Env) (lastTime : ℤ) (subs : List Submission),
      List.Pairwise (fun a b => a.now ≤ b.now) subs →
      List.Pairwise (fun p q => p.2.remoteCalls ≠ [] →
        q.2.remoteCalls ≠ [] → p.1.now + 60 ≤ q.1.now)
        (runSubmissions env lastTime subs)) ∧
    (∀ (env : Env) (now lastTime : ℤ) (amt description : String)
      (formParseOk : Bool),
      (generateInvoice env now lastTime amt description
        formParseOk).remoteCalls ≠ [] → 60 ≤ now - lastTime) ∧
    (∀ (env : Env) (lastTime : ℤ) (s : Submission),
      runSubmissions env lastTime [s, s] =
        [(s, generateInvoice env s.now lastTime s.amt s.description
            s.formParseOk),
         (s, ⟨.rendered .InvoiceTimeNotElapsed none,
            (generateInvoice env s.now lastTime s.amt s.description
              s.formParseOk).lastGeneratedInvoiceTime, []⟩)]) := by
  refine ⟨fun env lastTime subs hpw =>
    runSubmissions_dispatch_spacing subs env lastTime hpw, ?_, ?_⟩
  · intro env now lastTime amt description formParseOk h
    have h60 := generateInvoice_dispatch_elapsed env now lastTime amt
      description formParseOk h
    rw [GenerateInvoiceTimeout_eq] at h60
    exact h60
  · intro env lastTime s
    simp only [runSubmissions]
    rw [generateInvoice_second_identical]

/-- Witness for C3 at a concrete input: two submissions 30 seconds apart. -/
theorem invoice_dispatch_spacing_witness :
    List.Pairwise (fun (a b : Submission) => a.now ≤ b.now)
      [⟨100, "0.1", "memo", true⟩, ⟨130, "0.1", "memo", true⟩] ∧
    List.Pairwise (fun p q => p.2.remoteCalls ≠ [] →
      q.2.remoteCalls ≠ [] → p.1.now + 60 ≤ q.1.now)
      (runSubmissions env0 0
        [⟨100, "0.1", "memo", true⟩, ⟨130, "0.1", "memo", true⟩]) ∧
    (60 : ℤ) ≤ 100 - 0 := by
  have hpw : List.Pairwise (fun (a b : Submission) => a.now ≤ b.now)
      [⟨100, "0.1", "memo", true⟩, ⟨130, "0.1", "memo", true⟩] := by
    norm_num [List.pairwise_cons]
  have hne : (generateInvoice env0 100 0 "0.1" "memo" true).remoteCalls ≠
      [] := by
    rw [generateInvoice_admitted_remoteCalls env0 100 0 "0.1" "memo" (1/10)
      (by norm_num [GenerateInvoiceTimeout]) (by simp [env0]) (by norm_num)]
    simp
  exact ⟨hpw, invoice_dispatch_spacing.1 env0 0 _ hpw,
    invoice_dispatch_spacing.2.1 env0 100 0 "0.1" "memo" true hne⟩

/-- Counterexample to C10 as stated: a POST request whose URL query lacks the
action parameter makes faucetHome index the empty action slice, a runtime
panic, instead of returning a result. -/
theorem missing_action_panics_counterexample :
    faucetHome env0 100 0 .POST [] "0.1" "memo" true = (.panicked, 0) := rfl

/-- C10 amended: for every inbound request except a POST whose URL query
lacks the action parameter, faucetHome hands a result back to the HTTP layer
without a process-level fault; the excluded case panics on indexing the empty
action slice. -/
theorem handler_no_fault_with_action_present (env : Env)
    (now lastTime : ℤ) (method : Method) (queryAction : List String)
    (amt description : String) (formParseOk : Bool)
    (h : method = .POST → queryAction ≠ []) :
    (faucetHome env now lastTime method queryAction amt description
      formParseOk).1 ≠ .panicked := by
  cases method with
  | GET => simp [faucetHome]
  | POST =>
    cases queryAction with
    | nil => exact absurd rfl (h rfl)
    | cons a rest =>
      by_cases ha : a = GenerateInvoiceAction
      · simp [faucetHome, ha]
      · simp [faucetHome, ha]
  | other => simp [faucetHome]

/-- Witness for the amended C10 at a concrete input. -/
theorem handler_no_fault_with_action_present_witness :
    (Method.POST = Method.POST → (["generateinvoice"] : List String) ≠ []) ∧
    (faucetHome env0 100 0 .POST ["generateinvoice"] "0.1" "memo"
      true).1 ≠ .panicked :=
  ⟨fun _ => by simp,
   handler_no_fault_with_action_present env0 100 0 .POST ["generateinvoice"]
     "0.1" "memo" true (fun _ => by simp)⟩

end DcrTippin
